import Mathlib

/-!
Shallow embedding of `src/server.js` (Hospital Management System backend),
an Express gateway over a Supabase data store and the Resend email service.

Modelling conventions:
* Timestamps are `Int` milliseconds since the Unix epoch; the Supabase
  `gte`/`lte`/`lt` filters on `appointment_date` become `Int` comparisons
  (the backend compares timestamp values, not the raw request strings).
* The Supabase tables become lists inside a `DB` record; `insert ... select
  single` appends a row with the next generated id, `maybeSingle` becomes
  `List.find?` (first match), and the count queries become list lengths.
* Handlers whose claims do not involve backend failure are embedded on the
  error-free path (every `{ error }` field is null, so no `throw` fires).
  Email failure is injected through an `emailOk` flag, matching the
  `try { resend.emails.send ... } catch` blocks that swallow the error, and
  `hasApiKey` models the presence of `RESEND_API_KEY`.
* For the dashboard route, each count query carries an explicit failure flag:
  the Supabase client resolves with `{ count: null, error: ... }` instead of
  rejecting (which is why every other handler writes `if (error) throw error`),
  and this handler never inspects `error`, so a failed query only makes its
  `count` null.
* The email HTML body interpolates `toLocaleString()` output, which is
  locale-dependent; only the sender, recipient and subject of the message are
  modelled. The JS field `from` is rendered as `sender` (`from` is a Lean
  keyword).
-/

namespace HMS

/-- Row of the `patients` table. -/
structure Patient where
  id : Nat
  name : String
  age : Nat
  condition : String
  status : String
  contact_number : String
  email : String
deriving DecidableEq, Repr

/-- Row of the `doctors` table (only ever read by this layer). -/
structure Doctor where
  id : Nat
  name : String
  specialty : String
deriving DecidableEq, Repr

/-- Row of the `appointments` table. -/
structure Appointment where
  id : Nat
  patient_id : Nat
  doctor_name : String
  appointment_date : Int
  reason : String
deriving DecidableEq, Repr

/-- Account held by the auth service, as created by
`supabaseAdmin.auth.admin.createUser`. -/
structure AuthUser where
  email : String
  password : String
  email_confirm : Bool
  role : String
  name : String
deriving DecidableEq, Repr

/-- State of the external backend: the three tables, the auth accounts, and
the id sequences the store uses for generated identifiers. -/
structure DB where
  patients : List Patient
  doctors : List Doctor
  appointments : List Appointment
  authUsers : List AuthUser
  nextPatientId : Nat
  nextAppointmentId : Nat
deriving DecidableEq, Repr

/-- Message handed to `resend.emails.send`. The JS fields `from` and `to`
are rendered as `sender` and `recipient` (both are Lean keywords). -/
structure EmailMsg where
  sender : String
  recipient : String
  subject : String
deriving DecidableEq, Repr

/-- Body of a POST /api/appointments request. -/
structure AppointmentRequest where
  patient_id : Nat
  doctor_name : String
  appointment_date : Int
  reason : String
  patient_email : String
deriving DecidableEq, Repr

/-- Body of a POST /api/public/book request. `password` is optional in the
JSON body, hence `Option`. -/
structure BookRequest where
  name : String
  email : String
  age : Nat
  condition : String
  contact_number : String
  doctor_name : String
  doctor_specialty : String
  appointment_date : Int
  reason : String
  password : Option String
deriving DecidableEq, Repr

/-- Observable outcome of one handler invocation: HTTP status, resulting
backend state, the appointment returned in a 201 body (if any), the
`success` flag of the public-booking body, the email message submitted to
the email service (if the API key is configured and the send was reached),
and whether that send succeeded. -/
structure BookOutcome where
  status : Nat
  db : DB
  appointment : Option Appointment
  success : Option Bool
  emailAttempt : Option EmailMsg
  emailDelivered : Bool
deriving DecidableEq, Repr

/-- Clash window used by public booking: `30 * 60000` milliseconds. -/
def windowMs : Int := 30 * 60000

/-- Doctor display key used by public booking, the template string
`${doctor_name} (${doctor_specialty})`. -/
def formatDoctor (doctor_name doctor_specialty : String) : String :=
  doctor_name ++ " (" ++ doctor_specialty ++ ")"

/-- Conflict query of POST /api/public/book: appointments with
`doctor_name` equal to the formatted key and `appointment_date` between
`thirtyMinsBefore` and `thirtyMinsAfter`, both bounds inclusive
(`gte` / `lte`). -/
def clashConflicts (db : DB) (r : BookRequest) : List Appointment :=
  let key := formatDoctor r.doctor_name r.doctor_specialty
  let thirtyMinsBefore := r.appointment_date - windowMs
  let thirtyMinsAfter := r.appointment_date + windowMs
  db.appointments.filter (fun a =>
    a.doctor_name == key &&
    decide (thirtyMinsBefore ≤ a.appointment_date) &&
    decide (a.appointment_date ≤ thirtyMinsAfter))

/-- Email message built by POST /api/appointments (constant sender and
recipient, subject "Appointment Confirmation"). -/
def appointmentEmail : EmailMsg :=
  { sender := "onboarding@resend.dev"
    recipient := "delivered@resend.dev"
    subject := "Appointment Confirmation" }

/-- Email message built by POST /api/public/book (constant sender and
recipient, subject "Appointment Confirmed"). -/
def bookingEmail : EmailMsg :=
  { sender := "onboarding@resend.dev"
    recipient := "delivered@resend.dev"
    subject := "Appointment Confirmed" }

/-- POST /api/appointments: insert the row as submitted (no clash check,
no field validation), then attempt the confirmation email inside a
try/catch whose failure is only logged. Embedded on the path where the
insert succeeds (`dbError` null), so the response is 201 with the row. -/
def createAppointment (db : DB) (r : AppointmentRequest)
    (hasApiKey emailOk : Bool) : BookOutcome :=
  let appt : Appointment :=
    { id := db.nextAppointmentId
      patient_id := r.patient_id
      doctor_name := r.doctor_name
      appointment_date := r.appointment_date
      reason := r.reason }
  { status := 201
    db := { db with
            appointments := db.appointments ++ [appt]
            nextAppointmentId := db.nextAppointmentId + 1 }
    appointment := some appt
    success := none
    emailAttempt := if hasApiKey then some appointmentEmail else none
    emailDelivered := hasApiKey && emailOk }

/-- Shared tail of POST /api/public/book: insert the appointment with the
resolved `patient_id` and the formatted doctor name, attempt the
confirmation email (failure swallowed), respond 201 with
`{ success: true, appointment }`. -/
def insertBooking (db : DB) (r : BookRequest) (pid : Nat)
    (hasApiKey emailOk : Bool) : BookOutcome :=
  let appt : Appointment :=
    { id := db.nextAppointmentId
      patient_id := pid
      doctor_name := formatDoctor r.doctor_name r.doctor_specialty
      appointment_date := r.appointment_date
      reason := r.reason }
  { status := 201
    db := { db with
            appointments := db.appointments ++ [appt]
            nextAppointmentId := db.nextAppointmentId + 1 }
    appointment := some appt
    success := some true
    emailAttempt := if hasApiKey then some bookingEmail else none
    emailDelivered := hasApiKey && emailOk }

/-- Outcome of the early-return branches of public booking (409 and 400):
the backend state is untouched and no appointment or email is produced. -/
def rejectBooking (db : DB) (status : Nat) : BookOutcome :=
  { status := status
    db := db
    appointment := none
    success := none
    emailAttempt := none
    emailDelivered := false }

/-- Password guard of public booking: `!password || password.length < 6`
(an absent password and one shorter than six characters are both rejected;
the empty string is falsy in JS and also has length below six). -/
def passwordRejected (password : Option String) : Bool :=
  match password with
  | none => true
  | some pw => decide (pw.length < 6)

/-- Auth account created by `supabaseAdmin.auth.admin.createUser` during
public booking: the request's email and password, auto-confirmed, with role
"patient" and the request's name in the metadata. -/
def registeredAuthUser (r : BookRequest) : AuthUser :=
  { email := r.email
    password := r.password.getD ""
    email_confirm := true
    role := "patient"
    name := r.name }

/-- Patient row inserted during public booking for a previously unknown
contact number: the request's fields plus the fixed status "Outpatient". -/
def registeredPatient (db : DB) (r : BookRequest) : Patient :=
  { id := db.nextPatientId
    name := r.name
    age := r.age
    condition := r.condition
    status := "Outpatient"
    contact_number := r.contact_number
    email := r.email }

/-- Backend state after public booking registers a new patient: one auth
account and one patient row are added. -/
def registerPatient (db : DB) (r : BookRequest) : DB :=
  { db with
    patients := db.patients ++ [registeredPatient db r]
    authUsers := db.authUsers ++ [registeredAuthUser r]
    nextPatientId := db.nextPatientId + 1 }

/-- POST /api/public/book, embedded step by step from the handler:
clash detection first (409 on any conflict), then patient lookup by exact
contact number; a new patient requires a password of six or more characters
(400 otherwise), then an auth account and a patient row (status
"Outpatient") are created; finally the appointment is inserted and the
confirmation email attempted. Backend calls are on their error-free path;
email failure is injected via `emailOk`. -/
def publicBook (db : DB) (r : BookRequest) (hasApiKey emailOk : Bool) :
    BookOutcome :=
  if 0 < (clashConflicts db r).length then
    rejectBooking db 409
  else
    match db.patients.find? (fun p => p.contact_number == r.contact_number) with
    | some p => insertBooking db r p.id hasApiKey emailOk
    | none =>
      if passwordRejected r.password then
        rejectBooking db 400
      else
        insertBooking (registerPatient db r) r (registeredPatient db r).id
          hasApiKey emailOk

/-- Result object a Supabase count query resolves with: on success `count`
is the number of matching rows and `error` is null; on failure `count` is
null and `error` carries a message. The client resolves either way; it
never rejects. -/
structure CountResult where
  count : Option Nat
  error : Option String
deriving DecidableEq, Repr

/-- One `select('*', { count: 'exact', head: true })` call, with a failure
flag standing for whatever makes the query fail. -/
def countQuery (n : Nat) (fails : Bool) : CountResult :=
  if fails then { count := none, error := some "query failed" }
  else { count := some n, error := none }

/-- Number of appointments on the server's current calendar day:
`gte` the day's start (inclusive) and `lt` the next day's start
(exclusive). The two bounds are the handler's wall-clock day window. -/
def appointmentsTodayCount (db : DB) (todayStart todayEnd : Int) : Nat :=
  (db.appointments.filter (fun a =>
    decide (todayStart ≤ a.appointment_date) &&
    decide (a.appointment_date < todayEnd))).length

/-- Response of GET /api/dashboard/stats. All four fields are numbers
(`Nat` here): null can never appear, because each is built with `|| 0`. -/
structure StatsOutcome where
  status : Nat
  totalPatients : Nat
  totalDoctors : Nat
  totalAppointments : Nat
  appointmentsToday : Nat
deriving DecidableEq, Repr

/-- GET /api/dashboard/stats: issue the four count queries, await all four
results, and respond with each `count || 0`. The handler, unlike every
other route in the file, has no `if (error) throw error` check, and the
count queries resolve (never reject) even on failure, so `Promise.all`
always fulfils and the catch-all 500 branch is unreachable: the response
status is always 200, with 0 substituted for a failed query's null count. -/
def dashboardStats (db : DB) (todayStart todayEnd : Int)
    (patientsFail doctorsFail apptsFail todayFail : Bool) : StatsOutcome :=
  let patients := countQuery db.patients.length patientsFail
  let doctors := countQuery db.doctors.length doctorsFail
  let appointments := countQuery db.appointments.length apptsFail
  let appointmentsToday :=
    countQuery (appointmentsTodayCount db todayStart todayEnd) todayFail
  { status := 200
    totalPatients := patients.count.getD 0
    totalDoctors := doctors.count.getD 0
    totalAppointments := appointments.count.getD 0
    appointmentsToday := appointmentsToday.count.getD 0 }

/-!
Helper lemmas shared by the claim theorems.
-/

/-- Spec-side clash predicate, in the wording of the claims: some stored
appointment for the same formatted doctor name lies within 30 minutes
(inclusive) of the requested time. Stated with `|T - T'|` to be compared
with the handler's `gte`/`lte` filter. -/
def specClash (db : DB) (r : BookRequest) : Prop :=
  ∃ a ∈ db.appointments,
    a.doctor_name = formatDoctor r.doctor_name r.doctor_specialty ∧
    |a.appointment_date - r.appointment_date| ≤ windowMs

instance (db : DB) (r : BookRequest) : Decidable (specClash db r) := by
  unfold specClash; infer_instance

theorem length_filter_pos_iff {α : Type} (p : α → Bool) (l : List α) :
    0 < (l.filter p).length ↔ ∃ a ∈ l, p a = true := by
  induction l with
  | nil => simp
  | cons x xs ih =>
    by_cases h : p x = true <;> simp [List.filter_cons, h, ih]

theorem find?_append_of_none {α : Type} (p : α → Bool) (l1 l2 : List α)
    (h : l1.find? p = none) : (l1 ++ l2).find? p = l2.find? p := by
  induction l1 with
  | nil => simp
  | cons x xs ih =>
    by_cases hx : p x = true
    · rw [List.find?_cons_of_pos _ hx] at h; cases h
    · rw [List.find?_cons_of_neg _ hx] at h
      rw [List.cons_append, List.find?_cons_of_neg _ hx]
      exact ih h

/-- The handler's conflict filter is nonempty exactly when the spec-side
window predicate holds: `gte (T - 30min)` and `lte (T + 30min)` together
say `|T' - T| ≤ 30min`, boundary included. -/
theorem clash_length_pos_iff (db : DB) (r : BookRequest) :
    0 < (clashConflicts db r).length ↔ specClash db r := by
  unfold clashConflicts specClash
  rw [length_filter_pos_iff]
  simp only [Bool.and_eq_true, decide_eq_true_eq, beq_iff_eq]
  constructor
  · rintro ⟨a, ha, ⟨hd, h1⟩, h2⟩
    exact ⟨a, ha, hd, by rw [abs_le]; constructor <;> omega⟩
  · rintro ⟨a, ha, hd, habs⟩
    rw [abs_le] at habs
    exact ⟨a, ha, ⟨hd, by omega⟩, by omega⟩

theorem publicBook_of_clash (db : DB) (r : BookRequest) (k e : Bool)
    (h : 0 < (clashConflicts db r).length) :
    publicBook db r k e = rejectBooking db 409 := by
  unfold publicBook; rw [if_pos h]

theorem publicBook_of_found (db : DB) (r : BookRequest) (k e : Bool)
    (hc : ¬ 0 < (clashConflicts db r).length) (p : Patient)
    (hf : db.patients.find? (fun q => q.contact_number == r.contact_number) =
      some p) :
    publicBook db r k e = insertBooking db r p.id k e := by
  unfold publicBook; rw [if_neg hc, hf]

theorem publicBook_of_badPassword (db : DB) (r : BookRequest) (k e : Bool)
    (hc : ¬ 0 < (clashConflicts db r).length)
    (hf : db.patients.find? (fun q => q.contact_number == r.contact_number) =
      none)
    (hp : passwordRejected r.password = true) :
    publicBook db r k e = rejectBooking db 400 := by
  unfold publicBook; rw [if_neg hc, hf]; exact if_pos hp

theorem publicBook_of_register (db : DB) (r : BookRequest) (k e : Bool)
    (hc : ¬ 0 < (clashConflicts db r).length)
    (hf : db.patients.find? (fun q => q.contact_number == r.contact_number) =
      none)
    (hp : passwordRejected r.password = false) :
    publicBook db r k e =
      insertBooking (registerPatient db r) r (registeredPatient db r).id k e := by
  unfold publicBook; rw [if_neg hc, hf]
  exact if_neg (by rw [hp]; exact Bool.false_ne_true)

theorem publicBook_email_independent (db : DB) (r : BookRequest)
    (k e e' : Bool) :
    (publicBook db r k e).status = (publicBook db r k e').status ∧
    (publicBook db r k e).db = (publicBook db r k e').db ∧
    (publicBook db r k e).appointment = (publicBook db r k e').appointment ∧
    (publicBook db r k e).success = (publicBook db r k e').success ∧
    (publicBook db r k false).emailDelivered = false := by
  by_cases hc : 0 < (clashConflicts db r).length
  · rw [publicBook_of_clash db r k e hc, publicBook_of_clash db r k e' hc,
      publicBook_of_clash db r k false hc]
    exact ⟨rfl, rfl, rfl, rfl, rfl⟩
  · cases hf : db.patients.find? (fun q => q.contact_number == r.contact_number) with
    | some p =>
      rw [publicBook_of_found db r k e hc p hf,
        publicBook_of_found db r k e' hc p hf,
        publicBook_of_found db r k false hc p hf]
      exact ⟨rfl, rfl, rfl, rfl, by simp [insertBooking]⟩
    | none =>
      cases hp : passwordRejected r.password with
      | true =>
        rw [publicBook_of_badPassword db r k e hc hf hp,
          publicBook_of_badPassword db r k e' hc hf hp,
          publicBook_of_badPassword db r k false hc hf hp]
        exact ⟨rfl, rfl, rfl, rfl, rfl⟩
      | false =>
        rw [publicBook_of_register db r k e hc hf hp,
          publicBook_of_register db r k e' hc hf hp,
          publicBook_of_register db r k false hc hf hp]
        exact ⟨rfl, rfl, rfl, rfl, by simp [insertBooking]⟩

theorem createAppointment_emailAttempt (db : DB) (r : AppointmentRequest)
    (k e : Bool) :
    (createAppointment db r k e).emailAttempt =
      if k then some appointmentEmail else none := rfl

theorem publicBook_emailAttempt_cases (db : DB) (r : BookRequest)
    (k e : Bool) :
    (publicBook db r k e).emailAttempt = none ∨
    (publicBook db r k e).emailAttempt =
      if k then some bookingEmail else none := by
  by_cases hc : 0 < (clashConflicts db r).length
  · rw [publicBook_of_clash db r k e hc]; exact Or.inl rfl
  · cases hf : db.patients.find? (fun q => q.contact_number == r.contact_number) with
    | some p =>
      rw [publicBook_of_found db r k e hc p hf]; exact Or.inr rfl
    | none =>
      cases hp : passwordRejected r.password with
      | true =>
        rw [publicBook_of_badPassword db r k e hc hf hp]; exact Or.inl rfl
      | false =>
        rw [publicBook_of_register db r k e hc hf hp]; exact Or.inr rfl

/-!
Concrete states and requests used by the scenario claim and by the
witnesses and counterexamples.
-/

/-- Backend with no rows at all. -/
def emptyDB : DB :=
  { patients := []
    doctors := []
    appointments := []
    authUsers := []
    nextPatientId := 1
    nextAppointmentId := 1 }

/-- The spec scenario's booking request. `1704103200000` is
2024-01-01T10:00:00Z in epoch milliseconds. -/
def sampleBooking : BookRequest :=
  { name := "A"
    email := "a@x.com"
    age := 30
    condition := "flu"
    contact_number := "555"
    doctor_name := "Dr Smith"
    doctor_specialty := "GP"
    appointment_date := 1704103200000
    reason := "checkup"
    password := some "secret1" }

/-- The scenario's second request: same fields, time 2024-01-01T10:15:00Z
(`1704104100000` epoch milliseconds). -/
def sampleBookingQuarterLater : BookRequest :=
  { sampleBooking with appointment_date := 1704104100000 }

/-- Same booking about two hours later, outside the clash window. -/
def sampleBookingLater : BookRequest :=
  { sampleBooking with appointment_date := 1704110000000 }

/-- The sample booking with a five-character password. -/
def shortPwBooking : BookRequest :=
  { sampleBooking with password := some "abc" }

/-- Appointment already stored for "Dr Smith (GP)" at 2024-01-01T10:00:00Z. -/
def drSmithAppt : Appointment :=
  { id := 1
    patient_id := 7
    doctor_name := "Dr Smith (GP)"
    appointment_date := 1704103200000
    reason := "checkup" }

/-- Backend holding only `drSmithAppt`. -/
def busyDB : DB :=
  { patients := []
    doctors := []
    appointments := [drSmithAppt]
    authUsers := []
    nextPatientId := 1
    nextAppointmentId := 2 }

/-- Staff-route request colliding exactly with `drSmithAppt`. -/
def staffReq : AppointmentRequest :=
  { patient_id := 7
    doctor_name := "Dr Smith (GP)"
    appointment_date := 1704103200000
    reason := "checkup"
    patient_email := "p@x.com" }

/-- Patient already registered with contact number "555". -/
def knownPatient : Patient :=
  { id := 3
    name := "B"
    age := 40
    condition := "cough"
    status := "Outpatient"
    contact_number := "555"
    email := "b@x.com" }

/-- Backend holding only `knownPatient`. -/
def knownDB : DB :=
  { patients := [knownPatient]
    doctors := []
    appointments := []
    authUsers := []
    nextPatientId := 4
    nextAppointmentId := 1 }

/-- Backend with one patient, one doctor and one appointment, used to show
what the dashboard returns when one count query fails. -/
def statsDB : DB :=
  { patients := [knownPatient]
    doctors := [{ id := 1, name := "Dr Smith", specialty := "GP" }]
    appointments := [drSmithAppt]
    authUsers := []
    nextPatientId := 4
    nextAppointmentId := 2 }

/-!
Claim theorems.
-/

/-- Claim C2, counterexample: POST /api/appointments performs no clash
detection. With an appointment for "Dr Smith (GP)" already stored at
2024-01-01T10:00:00Z, a staff-route insert for the same doctor name at the
very same instant (well inside the ±30-minute window) is not rejected: it
answers 201 and the store ends up with both rows. -/
theorem createAppointment_ignores_clash_cex :
    (createAppointment busyDB staffReq true true).status = 201 ∧
    (createAppointment busyDB staffReq true true).db.appointments.length = 2 ∧
    staffReq.doctor_name = drSmithAppt.doctor_name ∧
    staffReq.appointment_date = drSmithAppt.appointment_date := by decide

/-- Claim C2 (amended): the ±30-minute clash rule is enforced only by
POST /api/public/book, which answers 409 whenever a stored appointment for
the same formatted doctor name lies within 30 minutes of the requested
time; POST /api/appointments runs no clash detection and always answers
201, appending the submitted row. -/
theorem clash_invariant_only_public_route :
    (∀ (db : DB) (r : BookRequest) (k e : Bool),
      specClash db r → (publicBook db r k e).status = 409) ∧
    (∀ (db : DB) (r : AppointmentRequest) (k e : Bool),
      (createAppointment db r k e).status = 201 ∧
      (createAppointment db r k e).db.appointments.length =
        db.appointments.length + 1) := by
  constructor
  · intro db r k e h
    rw [publicBook_of_clash db r k e ((clash_length_pos_iff db r).mpr h)]
    rfl
  · intro db r k e
    exact ⟨rfl, by simp [createAppointment]⟩

theorem clash_invariant_only_public_route_witness :
    (publicBook busyDB sampleBooking true true).status = 409 :=
  clash_invariant_only_public_route.1 busyDB sampleBooking true true (by decide)

/-- Claim C3, counterexample: the clash check runs before the password
check. For a request whose contact number matches no patient and whose
password has five characters, but whose time collides with a stored
appointment for the same doctor, the handler answers 409, not 400. -/
theorem shortPassword_conflict_409_cex :
    busyDB.patients.find?
      (fun q => q.contact_number == shortPwBooking.contact_number) = none ∧
    passwordRejected shortPwBooking.password = true ∧
    (publicBook busyDB shortPwBooking true true).status = 409 ∧
    ¬ (publicBook busyDB shortPwBooking true true).status = 400 := by decide

/-- Claim C3 (amended): for every public-booking request that does not hit
the clash window (otherwise 409 is returned first), whose contact number
matches no existing patient, and whose password is absent or shorter than
six characters, the handler answers 400 and leaves the backend unchanged:
no auth account, no patient and no appointment are created, and no email
is attempted. -/
theorem publicBook_shortPassword_400 (db : DB) (r : BookRequest) (k e : Bool)
    (hns : ¬ specClash db r)
    (hf : db.patients.find? (fun q => q.contact_number == r.contact_number) =
      none)
    (hp : passwordRejected r.password = true) :
    (publicBook db r k e).status = 400 ∧
    (publicBook db r k e).db = db ∧
    (publicBook db r k e).appointment = none ∧
    (publicBook db r k e).emailAttempt = none := by
  have hc : ¬ 0 < (clashConflicts db r).length :=
    fun h => hns ((clash_length_pos_iff db r).mp h)
  rw [publicBook_of_badPassword db r k e hc hf hp]
  exact ⟨rfl, rfl, rfl, rfl⟩

theorem publicBook_shortPassword_400_witness :
    (publicBook emptyDB shortPwBooking true true).status = 400 ∧
    (publicBook emptyDB shortPwBooking true true).db = emptyDB :=
  ⟨(publicBook_shortPassword_400 emptyDB shortPwBooking true true
      (by decide) (by decide) (by decide)).1,
   (publicBook_shortPassword_400 emptyDB shortPwBooking true true
      (by decide) (by decide) (by decide)).2.1⟩

/-- Claim C6, counterexample: with the patients-count query failing (its
result resolves with a null count and an error the handler never reads),
GET /api/dashboard/stats still answers 200 — not 500 — substituting 0 for
the failed count and returning the remaining counts. The window bounds are
the epoch milliseconds of 2024-01-01 and 2024-01-02. -/
theorem dashboardStats_failed_query_cex :
    (dashboardStats statsDB 1704067200000 1704153600000
        true false false false).status = 200 ∧
    ¬ (dashboardStats statsDB 1704067200000 1704153600000
        true false false false).status = 500 ∧
    (dashboardStats statsDB 1704067200000 1704153600000
        true false false false).totalPatients = 0 ∧
    (dashboardStats statsDB 1704067200000 1704153600000
        true false false false).totalDoctors = 1 ∧
    (dashboardStats statsDB 1704067200000 1704153600000
        true false false false).totalAppointments = 1 := by decide

/-- Claim C6 (amended): GET /api/dashboard/stats answers 200 whatever
subset of its four count queries fails, because the count queries resolve
with an error field instead of rejecting and this handler never inspects
that field; each failed query's null count surfaces as 0 and each
successful one as its exact value. -/
theorem dashboardStats_always_200 (db : DB) (tS tE : Int)
    (pf df af tf : Bool) :
    (dashboardStats db tS tE pf df af tf).status = 200 ∧
    (dashboardStats db tS tE pf df af tf).totalPatients =
      (if pf then 0 else db.patients.length) ∧
    (dashboardStats db tS tE pf df af tf).totalDoctors =
      (if df then 0 else db.doctors.length) ∧
    (dashboardStats db tS tE pf df af tf).totalAppointments =
      (if af then 0 else db.appointments.length) ∧
    (dashboardStats db tS tE pf df af tf).appointmentsToday =
      (if tf then 0 else appointmentsTodayCount db tS tE) := by
  cases pf <;> cases df <;> cases af <;> cases tf <;>
    exact ⟨rfl, rfl, rfl, rfl, rfl⟩

/-- Claim C7: when all four count queries succeed, the dashboard response
is 200 and its four numbers are exactly the backend's counts. Each field of
the response is a number by construction (`count || 0`), so null or
undefined can never appear; in particular a zero count comes back as the
number 0. -/
theorem dashboardStats_exact_counts (db : DB) (tS tE : Int) :
    dashboardStats db tS tE false false false false =
      { status := 200
        totalPatients := db.patients.length
        totalDoctors := db.doctors.length
        totalAppointments := db.appointments.length
        appointmentsToday := appointmentsTodayCount db tS tE } := rfl

/-- Claim C9: on an empty backend the scenario request (2024-01-01T10:00:00Z)
books successfully: 201, `success: true`, and the stored appointment's
doctor_name is "Dr Smith (GP)"; repeating it at 2024-01-01T10:15:00Z
against the resulting state answers 409. -/
theorem publicBook_scenario :
    (publicBook emptyDB sampleBooking true true).status = 201 ∧
    (publicBook emptyDB sampleBooking true true).success = some true ∧
    (publicBook emptyDB sampleBooking true true).appointment.map
      Appointment.doctor_name = some "Dr Smith (GP)" ∧
    (publicBook (publicBook emptyDB sampleBooking true true).db
      sampleBookingQuarterLater true true).status = 409 := by decide

/-- Claim C1, counterexample to its "otherwise the booking is accepted"
half: on an empty backend no appointment conflicts with anything, yet a
booking whose password has five characters is answered 400 — neither 409
nor accepted. -/
theorem no_clash_not_accepted_cex :
    (¬ specClash emptyDB shortPwBooking) ∧
    (publicBook emptyDB shortPwBooking true true).status = 400 ∧
    ¬ (publicBook emptyDB shortPwBooking true true).status = 201 ∧
    ¬ (publicBook emptyDB shortPwBooking true true).status = 409 := by
  decide

/-- Claim C1 (amended): for every request, public booking answers 409
exactly when some stored appointment for the same formatted doctor name
lies within 30 minutes of the requested time, the 30-minute boundary
included (`gte`/`lte`) — this biconditional is unconditional; and when no
such appointment exists, a request that can also proceed past the patient
step (its contact number is known, or its password passes the length
check) is accepted with 201. -/
theorem publicBook_clash_409_iff (db : DB) (r : BookRequest) (k e : Bool) :
    ((publicBook db r k e).status = 409 ↔ specClash db r) ∧
    (((db.patients.find?
          (fun q => q.contact_number == r.contact_number)).isSome = true ∨
        passwordRejected r.password = false) →
      ¬ specClash db r → (publicBook db r k e).status = 201) := by
  have hiff := clash_length_pos_iff db r
  by_cases hc : 0 < (clashConflicts db r).length
  · rw [publicBook_of_clash db r k e hc]
    exact ⟨⟨fun _ => hiff.mp hc, fun _ => rfl⟩,
      fun _ hn => absurd (hiff.mp hc) hn⟩
  · have hns : ¬ specClash db r := fun h => hc (hiff.mpr h)
    cases hf : db.patients.find?
        (fun q => q.contact_number == r.contact_number) with
    | some p =>
      rw [publicBook_of_found db r k e hc p hf]
      exact ⟨⟨fun h409 => by simp [insertBooking] at h409,
        fun hs => absurd hs hns⟩, fun _ _ => rfl⟩
    | none =>
      cases hp : passwordRejected r.password with
      | true =>
        rw [publicBook_of_badPassword db r k e hc hf hp]
        refine ⟨⟨fun h409 => by simp [rejectBooking] at h409,
          fun hs => absurd hs hns⟩, fun hok _ => ?_⟩
        rcases hok with h | h <;> simp at h
      | false =>
        rw [publicBook_of_register db r k e hc hf hp]
        exact ⟨⟨fun h409 => by simp [insertBooking] at h409,
          fun hs => absurd hs hns⟩, fun _ _ => rfl⟩

theorem publicBook_clash_409_iff_witness :
    (¬ specClash emptyDB sampleBooking) ∧
    (publicBook emptyDB sampleBooking true true).status = 201 :=
  ⟨by decide,
   (publicBook_clash_409_iff emptyDB sampleBooking true true).2
     (Or.inr (by decide)) (by decide)⟩

/-- Claim C5: the email try/catch swallows send failures on both insert
routes. POST /api/appointments answers 201 whenever the insert succeeded,
and its response, stored appointment and backend state are the same whether
the send succeeds or fails; likewise the whole observable outcome of
POST /api/public/book (status, state, appointment) is independent of the
email outcome, while the failed send itself delivers nothing. -/
theorem email_failure_preserves_outcome (db : DB) (ra : AppointmentRequest)
    (rb : BookRequest) (k : Bool) :
    (createAppointment db ra k false).status = 201 ∧
    (createAppointment db ra true false).emailDelivered = false ∧
    (createAppointment db ra k false).appointment =
      (createAppointment db ra k true).appointment ∧
    (createAppointment db ra k false).db =
      (createAppointment db ra k true).db ∧
    (publicBook db rb k false).status = (publicBook db rb k true).status ∧
    (publicBook db rb k false).db = (publicBook db rb k true).db ∧
    (publicBook db rb k false).appointment =
      (publicBook db rb k true).appointment ∧
    (publicBook db rb true false).emailDelivered = false := by
  have h := publicBook_email_independent db rb k false true
  have h' := publicBook_email_independent db rb true false true
  exact ⟨rfl, rfl, rfl, rfl, h.1, h.2.1, h.2.2.1, h'.2.2.2.2⟩

/-- Claim C8: a public-booking request whose contact number matches a
stored patient creates no auth account and, when it books, its appointment
carries that patient's id; conversely the auth-account list only ever
changes on a request whose contact number matched no patient. -/
theorem auth_created_only_for_unknown_contact (db : DB) (r : BookRequest)
    (k e : Bool) :
    (∀ p, db.patients.find?
        (fun q => q.contact_number == r.contact_number) = some p →
      (publicBook db r k e).db.authUsers = db.authUsers ∧
      ((publicBook db r k e).status = 201 →
        (publicBook db r k e).appointment.map Appointment.patient_id =
          some p.id)) ∧
    ((publicBook db r k e).db.authUsers ≠ db.authUsers →
      db.patients.find? (fun q => q.contact_number == r.contact_number) =
        none) := by
  by_cases hc : 0 < (clashConflicts db r).length
  · rw [publicBook_of_clash db r k e hc]
    exact ⟨fun p _ => ⟨rfl, fun h => by simp [rejectBooking] at h⟩,
      fun h => absurd rfl h⟩
  · cases hf : db.patients.find?
        (fun q => q.contact_number == r.contact_number) with
    | some p =>
      rw [publicBook_of_found db r k e hc p hf]
      refine ⟨fun q hq => ?_, fun h => absurd rfl h⟩
      injection hq with h
      subst h
      exact ⟨rfl, fun _ => rfl⟩
    | none =>
      exact ⟨fun q hq => (nomatch hq), fun _ => rfl⟩

theorem auth_created_only_for_unknown_contact_witness :
    (publicBook knownDB sampleBooking true true).db.authUsers =
      knownDB.authUsers ∧
    (publicBook knownDB sampleBooking true true).appointment.map
      Appointment.patient_id = some 3 :=
  ⟨((auth_created_only_for_unknown_contact knownDB sampleBooking true
      true).1 knownPatient (by decide)).1,
   ((auth_created_only_for_unknown_contact knownDB sampleBooking true
      true).1 knownPatient (by decide)).2 (by decide)⟩

/-- Claim C10: every confirmation email either route hands to the email
service has the constant sender "onboarding@resend.dev" and the constant
recipient "delivered@resend.dev", and the message is unchanged when the
request's patient_email (staff route) or email (public route) field is
replaced by any other string — so the patient's own address is never the
recipient. -/
theorem confirmation_email_fixed_addresses (db : DB)
    (ra : AppointmentRequest) (rb : BookRequest) (k e : Bool) :
    (∀ m, (createAppointment db ra k e).emailAttempt = some m →
      m.sender = "onboarding@resend.dev" ∧
      m.recipient = "delivered@resend.dev") ∧
    (∀ m, (publicBook db rb k e).emailAttempt = some m →
      m.sender = "onboarding@resend.dev" ∧
      m.recipient = "delivered@resend.dev") ∧
    (∀ x y : String,
      (createAppointment db { ra with patient_email := x } k e).emailAttempt =
      (createAppointment db { ra with patient_email := y } k e).emailAttempt) ∧
    (∀ x y : String,
      (publicBook db { rb with email := x } k e).emailAttempt =
      (publicBook db { rb with email := y } k e).emailAttempt) := by
  refine ⟨fun m hm => ?_, fun m hm => ?_, fun x y => rfl, fun x y => ?_⟩
  · rw [createAppointment_emailAttempt] at hm
    cases k with
    | false => exact nomatch hm
    | true =>
      rw [if_pos rfl] at hm
      injection hm with h
      subst h
      exact ⟨rfl, rfl⟩
  · rcases publicBook_emailAttempt_cases db rb k e with h | h
    · rw [h] at hm; exact nomatch hm
    · rw [h] at hm
      cases k with
      | false => exact nomatch hm
      | true =>
        rw [if_pos rfl] at hm
        injection hm with h'
        subst h'
        exact ⟨rfl, rfl⟩
  · by_cases hc : 0 < (clashConflicts db { rb with email := x }).length
    · rw [publicBook_of_clash db { rb with email := x } k e hc,
        publicBook_of_clash db { rb with email := y } k e hc]
    · cases hf : db.patients.find?
          (fun q => q.contact_number == rb.contact_number) with
      | some p =>
        rw [publicBook_of_found db { rb with email := x } k e hc p hf,
          publicBook_of_found db { rb with email := y } k e hc p hf]
        exact rfl
      | none =>
        cases hp : passwordRejected rb.password with
        | true =>
          rw [publicBook_of_badPassword db { rb with email := x } k e hc hf hp,
            publicBook_of_badPassword db { rb with email := y } k e hc hf hp]
        | false =>
          rw [publicBook_of_register db { rb with email := x } k e hc hf hp,
            publicBook_of_register db { rb with email := y } k e hc hf hp]
          exact rfl

theorem confirmation_email_fixed_addresses_witness :
    (publicBook emptyDB sampleBooking true true).emailAttempt =
      some bookingEmail ∧
    bookingEmail.sender = "onboarding@resend.dev" ∧
    bookingEmail.recipient = "delivered@resend.dev" :=
  ⟨by decide,
   (confirmation_email_fixed_addresses emptyDB staffReq sampleBooking true
      true).2.1 bookingEmail (by decide)⟩

/-- Claim C4: public booking is idempotent on patient identity. Two
successive successful bookings with the same contact number grow the
patient table and the auth-account list by at most one row in total, and
both created appointments carry the same patient id — the one the first
request created or found. -/
theorem publicBook_idempotent_on_contact (db : DB) (r1 r2 : BookRequest)
    (k1 e1 k2 e2 : Bool)
    (hcn : r1.contact_number = r2.contact_number)
    (h1 : (publicBook db r1 k1 e1).status = 201)
    (h2 : (publicBook (publicBook db r1 k1 e1).db r2 k2 e2).status = 201) :
    (publicBook (publicBook db r1 k1 e1).db r2 k2 e2).db.patients.length ≤
      db.patients.length + 1 ∧
    (publicBook (publicBook db r1 k1 e1).db r2 k2 e2).db.authUsers.length ≤
      db.authUsers.length + 1 ∧
    ∃ pid : Nat,
      (publicBook db r1 k1 e1).appointment.map Appointment.patient_id =
        some pid ∧
      (publicBook (publicBook db r1 k1 e1).db r2 k2 e2).appointment.map
        Appointment.patient_id = some pid := by
  by_cases hc1 : 0 < (clashConflicts db r1).length
  · rw [publicBook_of_clash db r1 k1 e1 hc1] at h1
    simp [rejectBooking] at h1
  · cases hf1 : db.patients.find?
        (fun q => q.contact_number == r1.contact_number) with
    | some p =>
      have E1 := publicBook_of_found db r1 k1 e1 hc1 p hf1
      rw [E1] at h2 ⊢
      by_cases hc2 : 0 <
          (clashConflicts (insertBooking db r1 p.id k1 e1).db r2).length
      · rw [publicBook_of_clash _ r2 k2 e2 hc2] at h2
        simp [rejectBooking] at h2
      · have hf1' : db.patients.find?
            (fun q => q.contact_number == r2.contact_number) = some p := by
          rw [← hcn]; exact hf1
        have E2 := publicBook_of_found (insertBooking db r1 p.id k1 e1).db
          r2 k2 e2 hc2 p hf1'
        rw [E2]
        exact ⟨Nat.le_succ _, Nat.le_succ _, p.id, rfl, rfl⟩
    | none =>
      cases hp1 : passwordRejected r1.password with
      | true =>
        rw [publicBook_of_badPassword db r1 k1 e1 hc1 hf1 hp1] at h1
        simp [rejectBooking] at h1
      | false =>
        have E1 := publicBook_of_register db r1 k1 e1 hc1 hf1 hp1
        rw [E1] at h2 ⊢
        by_cases hc2 : 0 <
            (clashConflicts (insertBooking (registerPatient db r1) r1
              (registeredPatient db r1).id k1 e1).db r2).length
        · rw [publicBook_of_clash _ r2 k2 e2 hc2] at h2
          simp [rejectBooking] at h2
        · have hf1' : db.patients.find?
              (fun q => q.contact_number == r2.contact_number) = none := by
            rw [← hcn]; exact hf1
          have hpred : ((registeredPatient db r1).contact_number ==
              r2.contact_number) = true := by
            show (r1.contact_number == r2.contact_number) = true
            rw [hcn]; exact beq_self_eq_true _
          have hfind2 : (db.patients ++ [registeredPatient db r1]).find?
              (fun q => q.contact_number == r2.contact_number) =
              some (registeredPatient db r1) := by
            rw [find?_append_of_none _ _ _ hf1']
            exact List.find?_cons_of_pos _ hpred
          have E2 := publicBook_of_found
            (insertBooking (registerPatient db r1) r1
              (registeredPatient db r1).id k1 e1).db r2 k2 e2 hc2
            (registeredPatient db r1) hfind2
          rw [E2]
          refine ⟨?_, ?_, (registeredPatient db r1).id, rfl, rfl⟩
          · show (db.patients ++ [registeredPatient db r1]).length ≤
              db.patients.length + 1
            simp
          · show (db.authUsers ++ [registeredAuthUser r1]).length ≤
              db.authUsers.length + 1
            simp

theorem publicBook_idempotent_on_contact_witness :
    (publicBook (publicBook emptyDB sampleBooking true true).db
      sampleBookingLater true true).db.patients.length ≤
      emptyDB.patients.length + 1 ∧
    (publicBook (publicBook emptyDB sampleBooking true true).db
      sampleBookingLater true true).db.authUsers.length ≤
      emptyDB.authUsers.length + 1 ∧
    ∃ pid : Nat,
      (publicBook emptyDB sampleBooking true true).appointment.map
        Appointment.patient_id = some pid ∧
      (publicBook (publicBook emptyDB sampleBooking true true).db
        sampleBookingLater true true).appointment.map
        Appointment.patient_id = some pid :=
  publicBook_idempotent_on_contact emptyDB sampleBooking sampleBookingLater
    true true true true rfl (by decide) (by decide)

end HMS
